import Mathlib

/-!
Verification of the simple-bookkeeping core: a shallow embedding of the
transaction data model, the balance engine (Dashboard stats), the ledger
store mutation handlers, the settings dialog edit, and the Dropbox remote
adapter (profile registry, rename, load, file operations).  Definitions are
translated from the TypeScript source; remote interactions are modelled by
an explicit environment value giving the outcome of each remote call, and
amounts are modelled as integers.
-/

set_option maxHeartbeats 1000000
set_option synthInstance.maxHeartbeats 400000

namespace Bookkeeping

/-- Transaction types, from src/types.ts. -/
inductive TransactionType
  | EXPENSE
  | INCOME
  | TRANSFER
deriving DecidableEq, Repr

/-- Transaction record, from src/types.ts.  The optional `type` field is kept
as an `Option` because the code treats a missing type as EXPENSE; amounts are
modelled as integers. -/
structure Transaction where
  id : String
  date : String
  type : Option TransactionType
  source : String
  destination : String
  amount : Int
  summary : String
  payer : String
  projectCode : String
  invoiceNumber : String
deriving DecidableEq, Repr

/-- Settings record, from src/types.ts.  The `initialBalances` object is
modelled as an association list with unique keys; a missing object is the
empty list. -/
structure AppSettings where
  commonSources : List String
  commonDestinations : List String
  commonIncomeSources : List String
  commonNotes : List String
  initialBalances : List (String × Int)
deriving DecidableEq, Repr

/-- Lookup in a JavaScript-object-as-association-list, first match wins. -/
def jsGet : List (String × Int) → String → Option Int
  | [], _ => none
  | p :: rest, k => if p.1 = k then some p.2 else jsGet rest k

/-- Default settings from the App component in src/types.ts. -/
def DEFAULT_SETTINGS : AppSettings :=
  { commonSources := ["國泰PLAY(街口)", "現金", "中信LINE PAY", "台新GoGo", "聯邦賴點卡"]
  , commonDestinations := ["早餐", "午餐", "晚餐", "飲料", "交通", "超市", "房租", "娛樂", "醫療", "其他"]
  , commonIncomeSources := ["薪資", "獎金", "投資", "回饋", "其他"]
  , commonNotes := ["早餐", "午餐", "晚餐", "飲料", "交通"]
  , initialBalances := [] }

/-! ## Balance engine (Dashboard.tsx, stats useMemo) -/

/-- The `balances` record built by the Dashboard: a JavaScript object with a
set of present keys and the stored value of each key. -/
structure BalMap where
  keys : Finset String
  val : String → Int

/-- Reading `balances[k] || 0`: the stored value for a present key, 0 for an
absent key (a stored 0 also reads as 0 under JavaScript truthiness, which is
the same value). -/
def BalMap.read (m : BalMap) (k : String) : Int :=
  if k ∈ m.keys then m.val k else 0

/-- Writing `balances[k] = v`. -/
def BalMap.set (m : BalMap) (k : String) (v : Int) : BalMap :=
  ⟨insert k m.keys, Function.update m.val k v⟩

/-- Initialization loop: `accounts.forEach(acc => balances[acc] = initialBalances[acc] || 0)`. -/
def initBalances (accounts : List String) (initial : List (String × Int)) : BalMap :=
  accounts.foldl (fun m acc => m.set acc ((jsGet initial acc).getD 0)) ⟨∅, fun _ => 0⟩

/-- Character-level model of `date.replace(/\//g, '-')`: every slash becomes
a dash. -/
def dashSlashes (s : String) : String :=
  ⟨s.data.map (fun c => if c = '/' then '-' else c)⟩

/-- Character-level model of `String.prototype.startsWith`. -/
def startsWithM (s pre : String) : Bool :=
  pre.data.isPrefixOf s.data

/-- The test `t.date.replace(/\//g, '-').startsWith(currentMonth)`; `now` is
the YYYY-MM string of the evaluation moment. -/
def isCurrentMonth (now : String) (t : Transaction) : Bool :=
  startsWithM (dashSlashes t.date) now

/-- Accumulator state of the stats loop. -/
structure StatsState where
  bal : BalMap
  monthlyIncome : Int
  monthlyExpense : Int

/-- Body of the `transactions.forEach` loop in the Dashboard stats
computation, from src/components/Dashboard.tsx lines 25-44. -/
def stepTx (now : String) (s : StatsState) (t : Transaction) : StatsState :=
  let amount := t.amount
  let isCM := isCurrentMonth now t
  match t.type with
  | none | some .EXPENSE =>
      let bal := if t.source ≠ "" then s.bal.set t.source (s.bal.read t.source - amount) else s.bal
      { bal := bal
      , monthlyIncome := s.monthlyIncome
      , monthlyExpense := if isCM then s.monthlyExpense + amount else s.monthlyExpense }
  | some .INCOME =>
      let bal := if t.destination ≠ "" then s.bal.set t.destination (s.bal.read t.destination + amount) else s.bal
      { bal := bal
      , monthlyIncome := if isCM then s.monthlyIncome + amount else s.monthlyIncome
      , monthlyExpense := s.monthlyExpense }
  | some .TRANSFER =>
      let bal1 := if t.source ≠ "" then s.bal.set t.source (s.bal.read t.source - amount) else s.bal
      let bal2 := if t.destination ≠ "" then bal1.set t.destination (bal1.read t.destination + amount) else bal1
      { bal := bal2
      , monthlyIncome := s.monthlyIncome
      , monthlyExpense := s.monthlyExpense }

/-- Result record of the stats computation. -/
structure Stats where
  balances : BalMap
  totalAssets : Int
  monthlyIncome : Int
  monthlyExpense : Int

/-- Sum of `Object.values(balances)`: the stored values of the present keys. -/
def BalMap.total (m : BalMap) : Int :=
  ∑ k ∈ m.keys, m.val k

/-- The stats useMemo of src/components/Dashboard.tsx: initialize balances
from the accounts and initial balances, walk the transactions, then sum the
values for the total assets. -/
def computeStats (transactions : List Transaction) (accounts : List String)
    (initial : List (String × Int)) (now : String) : Stats :=
  let st := transactions.foldl (stepTx now) ⟨initBalances accounts initial, 0, 0⟩
  { balances := st.bal
  , totalAssets := st.bal.total
  , monthlyIncome := st.monthlyIncome
  , monthlyExpense := st.monthlyExpense }

/-! ### Extensional characterization of the stats fold -/

/-- Net effect of one transaction on the balance of account `k`, read off the
loop body: an expense subtracts from its source, an income adds to its
destination, a transfer does both. -/
def contrib (t : Transaction) (k : String) : Int :=
  match t.type with
  | none | some .EXPENSE => if t.source ≠ "" ∧ k = t.source then -t.amount else 0
  | some .INCOME => if t.destination ≠ "" ∧ k = t.destination then t.amount else 0
  | some .TRANSFER =>
      (if t.source ≠ "" ∧ k = t.source then -t.amount else 0) +
      (if t.destination ≠ "" ∧ k = t.destination then t.amount else 0)

/-- Keys a transaction inserts into the balances object. -/
def touchedF (t : Transaction) : Finset String :=
  match t.type with
  | none | some .EXPENSE => if t.source ≠ "" then {t.source} else ∅
  | some .INCOME => if t.destination ≠ "" then {t.destination} else ∅
  | some .TRANSFER =>
      (if t.source ≠ "" then {t.source} else ∅) ∪
      (if t.destination ≠ "" then {t.destination} else ∅)

/-- Contribution of one transaction to the monthly income counter. -/
def incContrib (now : String) (t : Transaction) : Int :=
  match t.type with
  | some .INCOME => if isCurrentMonth now t then t.amount else 0
  | _ => 0

/-- Contribution of one transaction to the monthly expense counter. -/
def expContrib (now : String) (t : Transaction) : Int :=
  match t.type with
  | none | some .EXPENSE => if isCurrentMonth now t then t.amount else 0
  | _ => 0

theorem BalMap.read_set (m : BalMap) (k v k') :
    (m.set k v).read k' = if k' = k then v else m.read k' := by
  by_cases h : k' = k
  · simp [BalMap.set, BalMap.read, h]
  · simp [BalMap.set, BalMap.read, h, Function.update_apply]

theorem BalMap.keys_set (m : BalMap) (k v) :
    (m.set k v).keys = m.keys ∪ {k} := by
  simp [BalMap.set, Finset.insert_eq, Finset.union_comm]

theorem stepTx_read (now : String) (s : StatsState) (t : Transaction) (k : String) :
    ((stepTx now s t).bal).read k = s.bal.read k + contrib t k := by
  rcases htype : t.type with _ | tt
  · by_cases hs : t.source = "" <;>
      simp [stepTx, contrib, htype, hs, BalMap.read_set] <;>
      by_cases hk : k = t.source <;> simp [hk] <;> omega
  · cases tt
    · by_cases hs : t.source = "" <;>
        simp [stepTx, contrib, htype, hs, BalMap.read_set] <;>
        by_cases hk : k = t.source <;> simp [hk] <;> omega
    · by_cases hd : t.destination = "" <;>
        simp [stepTx, contrib, htype, hd, BalMap.read_set] <;>
        by_cases hk : k = t.destination <;> simp [hk]
    · by_cases hs : t.source = ""
      · by_cases hd : t.destination = ""
        · simp [stepTx, contrib, htype, hs, hd]
        · simp only [stepTx, contrib, htype, hs, hd, ne_eq, not_false_eq_true,
            not_true_eq_false, if_false, if_true, false_and, ite_false, BalMap.read_set]
          by_cases hk : k = t.destination <;> simp [hk, hd] <;> omega
      · by_cases hd : t.destination = ""
        · simp only [stepTx, contrib, htype, hs, hd, ne_eq, not_false_eq_true,
            not_true_eq_false, if_false, if_true, false_and, ite_false, BalMap.read_set]
          by_cases hk : k = t.source <;> simp [hk, hs] <;> omega
        · simp only [stepTx, contrib, htype, hs, hd, ne_eq, not_false_eq_true,
            if_true, ite_true, BalMap.read_set]
          by_cases hkd : k = t.destination
          · by_cases hds : t.destination = t.source <;>
              simp [hkd, hds, hs, hd] <;> omega
          · by_cases hks : k = t.source
            · subst hks
              simp [hkd, hs, hd]
              omega
            · simp [hkd, hks, hs, hd]

theorem stepTx_keys (now : String) (s : StatsState) (t : Transaction) :
    ((stepTx now s t).bal).keys = s.bal.keys ∪ touchedF t := by
  rcases htype : t.type with _ | tt
  · by_cases hs : t.source = "" <;>
      simp [stepTx, touchedF, htype, hs, BalMap.keys_set]
  · cases tt
    · by_cases hs : t.source = "" <;>
        simp [stepTx, touchedF, htype, hs, BalMap.keys_set]
    · by_cases hd : t.destination = "" <;>
        simp [stepTx, touchedF, htype, hd, BalMap.keys_set]
    · by_cases hs : t.source = "" <;> by_cases hd : t.destination = "" <;>
        simp [stepTx, touchedF, htype, hs, hd, BalMap.keys_set, Finset.union_assoc]

theorem stepTx_mi (now : String) (s : StatsState) (t : Transaction) :
    (stepTx now s t).monthlyIncome = s.monthlyIncome + incContrib now t := by
  rcases htype : t.type with _ | tt
  · simp [stepTx, incContrib, htype]
  · cases tt <;> simp [stepTx, incContrib, htype] <;> split <;> simp

theorem stepTx_me (now : String) (s : StatsState) (t : Transaction) :
    (stepTx now s t).monthlyExpense = s.monthlyExpense + expContrib now t := by
  rcases htype : t.type with _ | tt
  · simp [stepTx, expContrib, htype]
    split <;> simp
  · cases tt <;> simp [stepTx, expContrib, htype] <;> split <;> simp

theorem foldl_stepTx_read (now : String) (ts : List Transaction) (init : StatsState) (k : String) :
    ((ts.foldl (stepTx now) init).bal).read k
      = init.bal.read k + (ts.map (fun t => contrib t k)).sum := by
  induction ts generalizing init with
  | nil => simp
  | cons t ts ih =>
      simp only [List.foldl_cons, List.map_cons, List.sum_cons]
      rw [ih, stepTx_read]
      ring

theorem foldl_stepTx_keys (now : String) (ts : List Transaction) (init : StatsState) :
    ((ts.foldl (stepTx now) init).bal).keys
      = init.bal.keys ∪ ts.toFinset.biUnion touchedF := by
  induction ts generalizing init with
  | nil => simp
  | cons t ts ih =>
      simp only [List.foldl_cons, List.toFinset_cons, Finset.biUnion_insert]
      rw [ih, stepTx_keys, Finset.union_assoc]

theorem foldl_stepTx_mi (now : String) (ts : List Transaction) (init : StatsState) :
    (ts.foldl (stepTx now) init).monthlyIncome
      = init.monthlyIncome + (ts.map (incContrib now)).sum := by
  induction ts generalizing init with
  | nil => simp
  | cons t ts ih =>
      simp only [List.foldl_cons, List.map_cons, List.sum_cons]
      rw [ih, stepTx_mi]
      ring

theorem foldl_stepTx_me (now : String) (ts : List Transaction) (init : StatsState) :
    (ts.foldl (stepTx now) init).monthlyExpense
      = init.monthlyExpense + (ts.map (expContrib now)).sum := by
  induction ts generalizing init with
  | nil => simp
  | cons t ts ih =>
      simp only [List.foldl_cons, List.map_cons, List.sum_cons]
      rw [ih, stepTx_me]
      ring

theorem BalMap.total_eq_sum_read (m : BalMap) :
    m.total = ∑ k ∈ m.keys, m.read k := by
  refine Finset.sum_congr rfl (fun k hk => ?_)
  simp [BalMap.read, hk]

theorem foldl_set_read (accounts : List String) (g : String → Int) (m : BalMap) (a : String) :
    (accounts.foldl (fun m acc => m.set acc (g acc)) m).read a
      = if a ∈ accounts then g a else m.read a := by
  induction accounts generalizing m with
  | nil => simp
  | cons acc accs ih =>
      simp only [List.foldl_cons, ih, BalMap.read_set, List.mem_cons]
      by_cases h1 : a ∈ accs
      · simp [h1]
      · by_cases h2 : a = acc <;> simp [h1, h2]

theorem initBalances_read (accounts : List String) (initial : List (String × Int)) (a : String) :
    (initBalances accounts initial).read a
      = if a ∈ accounts then (jsGet initial a).getD 0 else 0 := by
  rw [initBalances, foldl_set_read]
  simp [BalMap.read]

theorem contrib_of_not_touched (t : Transaction) (a : String) (h : a ∉ touchedF t) :
    contrib t a = 0 := by
  rcases htype : t.type with _ | tt
  · by_cases hs : t.source = "" <;> simp_all [contrib, touchedF, htype, hs]
  · cases tt
    · by_cases hs : t.source = "" <;> simp_all [contrib, touchedF, htype, hs]
    · by_cases hd : t.destination = "" <;> simp_all [contrib, touchedF, htype, hd]
    · by_cases hs : t.source = "" <;> by_cases hd : t.destination = "" <;>
        simp_all [contrib, touchedF, htype, hs, hd]

/-- Balance read out of the stats result, unfolded onto the fold. -/
theorem computeStats_read (ts : List Transaction) (accounts initial now) (k : String) :
    (computeStats ts accounts initial now).balances.read k
      = (initBalances accounts initial).read k + (ts.map (fun t => contrib t k)).sum := by
  simp [computeStats, foldl_stepTx_read]

/-- The singleton expense of the spec scenario: EXPENSE of 30 from Cash. -/
def scenarioTx : Transaction :=
  { id := "t1", date := "2025/10/11", type := some .EXPENSE, source := "Cash"
  , destination := "Food", amount := 30, summary := "", payer := ""
  , projectCode := "", invoiceNumber := "" }

/-- C5: the balance computation walks the transactions applying EXPENSE as a
decrement of the source balance, INCOME as an increment of the destination
balance, TRANSFER as both, each account starting at its initial balance (0 if
absent); and on accounts [Cash] with initial balance 100 and the single
EXPENSE transaction of 30 from Cash, the result has Cash balance 70 and total
assets 70. -/
theorem computeStats_walk_and_scenario :
    (∀ (accounts : List String) (initial : List (String × Int)) (now : String)
        (a : String), a ∈ accounts →
        (computeStats [] accounts initial now).balances.read a = (jsGet initial a).getD 0)
  ∧ (∀ ts accounts initial now (t : Transaction),
        (t.type = none ∨ t.type = some .EXPENSE) → t.source ≠ "" →
        (computeStats (ts ++ [t]) accounts initial now).balances.read t.source
          = (computeStats ts accounts initial now).balances.read t.source - t.amount)
  ∧ (∀ ts accounts initial now (t : Transaction),
        t.type = some .INCOME → t.destination ≠ "" →
        (computeStats (ts ++ [t]) accounts initial now).balances.read t.destination
          = (computeStats ts accounts initial now).balances.read t.destination + t.amount)
  ∧ (∀ ts accounts initial now (t : Transaction),
        t.type = some .TRANSFER → t.source ≠ "" → t.destination ≠ "" →
        t.source ≠ t.destination →
        (computeStats (ts ++ [t]) accounts initial now).balances.read t.source
          = (computeStats ts accounts initial now).balances.read t.source - t.amount
        ∧ (computeStats (ts ++ [t]) accounts initial now).balances.read t.destination
          = (computeStats ts accounts initial now).balances.read t.destination + t.amount)
  ∧ (∀ ts accounts initial now (t : Transaction) (a : String),
        a ∉ touchedF t →
        (computeStats (ts ++ [t]) accounts initial now).balances.read a
          = (computeStats ts accounts initial now).balances.read a)
  ∧ ((computeStats [scenarioTx] ["Cash"] [("Cash", 100)] "2025-10").balances.read "Cash" = 70
      ∧ (computeStats [scenarioTx] ["Cash"] [("Cash", 100)] "2025-10").totalAssets = 70) := by
  refine ⟨?_, ?_, ?_, ?_, ?_, by decide, by decide⟩
  · intro accounts initial now a ha
    rw [computeStats_read]
    simp [initBalances_read, ha]
  · intro ts accounts initial now t htype hs
    rcases htype with h | h <;>
      (simp [computeStats_read, contrib, h, hs, sub_eq_add_neg]; ring)
  · intro ts accounts initial now t htype hd
    simp [computeStats_read, contrib, htype, hd]
    ring
  · intro ts accounts initial now t htype hs hd hsd
    have hds : ¬(t.destination = t.source) := fun h => hsd h.symm
    constructor
    · simp [computeStats_read, contrib, htype, hs, hd, hsd, hds, sub_eq_add_neg]
      ring
    · simp [computeStats_read, contrib, htype, hs, hd, hsd, hds]
      ring
  · intro ts accounts initial now t a ha
    simp [computeStats_read, contrib_of_not_touched t a ha]

/-- C5 witness: the EXPENSE step conjunct applied at a concrete input,
together with the concrete scenario. -/
theorem computeStats_walk_and_scenario_w :
    ((scenarioTx.type = none ∨ scenarioTx.type = some .EXPENSE) ∧ scenarioTx.source ≠ "")
  ∧ (computeStats ([] ++ [scenarioTx]) ["Cash"] [("Cash", 100)] "2025-10").balances.read
        scenarioTx.source
      = (computeStats [] ["Cash"] [("Cash", 100)] "2025-10").balances.read scenarioTx.source
          - scenarioTx.amount := by
  refine ⟨⟨Or.inr rfl, by decide⟩, ?_⟩
  exact computeStats_walk_and_scenario.2.1 [] ["Cash"] [("Cash", 100)] "2025-10" scenarioTx
    (Or.inr rfl) (by decide)

/-- C6: the stats computation is deterministic and order-independent:
permuting the transaction collection yields the same key set, the same
balance read at every account, and the same total assets, monthly income and
monthly expense, for the same evaluation moment. -/
theorem computeStats_perm_invariant (ts ts' : List Transaction) (accounts : List String)
    (initial : List (String × Int)) (now : String) (h : ts.Perm ts') :
    (computeStats ts accounts initial now).balances.keys
      = (computeStats ts' accounts initial now).balances.keys
  ∧ (∀ k, (computeStats ts accounts initial now).balances.read k
      = (computeStats ts' accounts initial now).balances.read k)
  ∧ (computeStats ts accounts initial now).totalAssets
      = (computeStats ts' accounts initial now).totalAssets
  ∧ (computeStats ts accounts initial now).monthlyIncome
      = (computeStats ts' accounts initial now).monthlyIncome
  ∧ (computeStats ts accounts initial now).monthlyExpense
      = (computeStats ts' accounts initial now).monthlyExpense := by
  have hkeys : (computeStats ts accounts initial now).balances.keys
      = (computeStats ts' accounts initial now).balances.keys := by
    simp only [computeStats, foldl_stepTx_keys]
    rw [List.toFinset_eq_of_perm _ _ h]
  have hread : ∀ k, (computeStats ts accounts initial now).balances.read k
      = (computeStats ts' accounts initial now).balances.read k := by
    intro k
    rw [computeStats_read, computeStats_read, List.Perm.sum_eq (h.map _)]
  refine ⟨hkeys, hread, ?_, ?_, ?_⟩
  · show (computeStats ts accounts initial now).balances.total
        = (computeStats ts' accounts initial now).balances.total
    rw [BalMap.total_eq_sum_read, BalMap.total_eq_sum_read, hkeys]
    exact Finset.sum_congr rfl (fun k _ => hread k)
  · simp only [computeStats, foldl_stepTx_mi]
    rw [List.Perm.sum_eq (h.map _)]
  · simp only [computeStats, foldl_stepTx_me]
    rw [List.Perm.sum_eq (h.map _)]

/-- An income transaction used in the permutation witness. -/
def scenarioTx2 : Transaction :=
  { id := "t2", date := "2025/10/12", type := some .INCOME, source := "薪資"
  , destination := "Cash", amount := 50, summary := "", payer := ""
  , projectCode := "", invoiceNumber := "" }

/-- C6 witness: the permutation invariance applied to a concrete two-element
swap. -/
theorem computeStats_perm_invariant_w :
    ([scenarioTx2, scenarioTx] : List Transaction).Perm [scenarioTx, scenarioTx2]
  ∧ (computeStats [scenarioTx2, scenarioTx] ["Cash"] [("Cash", 100)] "2025-10").balances.read "Cash"
      = (computeStats [scenarioTx, scenarioTx2] ["Cash"] [("Cash", 100)] "2025-10").balances.read "Cash"
  ∧ (computeStats [scenarioTx2, scenarioTx] ["Cash"] [("Cash", 100)] "2025-10").totalAssets
      = (computeStats [scenarioTx, scenarioTx2] ["Cash"] [("Cash", 100)] "2025-10").totalAssets := by
  have hp : ([scenarioTx2, scenarioTx] : List Transaction).Perm [scenarioTx, scenarioTx2] :=
    List.Perm.swap scenarioTx scenarioTx2 []
  have h := computeStats_perm_invariant [scenarioTx2, scenarioTx] [scenarioTx, scenarioTx2]
    ["Cash"] [("Cash", 100)] "2025-10" hp
  exact ⟨hp, h.2.1 "Cash", h.2.2.1⟩

/-! ## Ledger store handlers (App component, src/types.ts) -/

/-- Outcome of one remote persistence call, distinguishing the error
taxonomy: success, auth failure (401/invalid token), transport failure. -/
inductive PersistResult
  | ok
  | errAuth
  | errTransport
deriving DecidableEq, Repr

/-- In-memory state of the App component: the transaction collection, the
transaction being edited, the settings, the session flags, and the recency
suggestion lists. -/
structure AppState where
  transactions : List Transaction
  editing : Option Transaction
  settings : AppSettings
  isAuthenticated : Bool
  tokenStored : Bool
  recentSources : List String
  recentDestinations : List String
deriving DecidableEq, Repr

/-- First-occurrence deduplication, the insertion order of a JavaScript Set. -/
def dedupFirst (l : List String) : List String :=
  l.foldl (fun acc s => if s ∈ acc then acc else acc ++ [s]) []

/-- The updateSuggestions helper: distinct sources and destinations, capped
at 10 each. -/
def updateSuggestions (data : List Transaction) (s : AppState) : AppState :=
  { s with recentSources := (dedupFirst (data.map (fun t => t.source))).take 10
         , recentDestinations := (dedupFirst (data.map (fun t => t.destination))).take 10 }

/-- The handleAddTransaction handler of src/types.ts lines 210-234: in edit
mode with a single incoming transaction it replaces by id and leaves edit
mode, otherwise it appends; it then updates suggestions and persists the full
collection, reporting (but not undoing anything on) a persistence failure.
Returns the new state and whether a sync failure was reported. -/
def handleAddTransaction (s : AppState) (newTxs : List Transaction)
    (persist : PersistResult) : AppState × Bool :=
  let (updated, editing') :=
    match s.editing, newTxs with
    | some _, [t] => (s.transactions.map (fun x => if x.id = t.id then t else x), none)
    | _, _ => (s.transactions ++ newTxs, s.editing)
  let s' := updateSuggestions updated { s with transactions := updated, editing := editing' }
  match persist with
  | .ok => (s', false)
  | _ => (s', true)

/-- The handleDeleteTransaction handler of src/types.ts lines 241-253 (after
the user confirmation): filter out the id, persist, report failure. -/
def handleDeleteTransaction (s : AppState) (id : String)
    (persist : PersistResult) : AppState × Bool :=
  let updated := s.transactions.filter (fun t => t.id ≠ id)
  let s' := { s with transactions := updated }
  match persist with
  | .ok => (s', false)
  | _ => (s', true)

/-- The handleSaveSettings handler of src/types.ts lines 255-263: set the
settings, persist, report failure. -/
def handleSaveSettings (s : AppState) (newSettings : AppSettings)
    (persist : PersistResult) : AppState × Bool :=
  let s' := { s with settings := newSettings }
  match persist with
  | .ok => (s', false)
  | _ => (s', true)

/-- The handleEditTransaction handler: marks a transaction as being edited. -/
def handleEditTransaction (s : AppState) (t : Transaction) : AppState :=
  { s with editing := some t }

/-- One collaborator call into the store, carrying the persistence outcome
its write will have. -/
inductive Call
  | save (newTxs : List Transaction) (persist : PersistResult)
  | delete (id : String) (persist : PersistResult)
  | beginEdit (t : Transaction)
deriving DecidableEq, Repr

/-- Run one call against the state. -/
def runCall (s : AppState) : Call → AppState
  | .save newTxs persist => (handleAddTransaction s newTxs persist).1
  | .delete id persist => (handleDeleteTransaction s id persist).1
  | .beginEdit t => handleEditTransaction s t

/-- Run a sequence of calls. -/
def runCalls (s : AppState) : List Call → AppState
  | [] => s
  | c :: rest => runCalls (runCall s c) rest

/-- The pure mutation operations of the spec: append, replace by id, filter
by id. -/
inductive TxOp
  | add (newTxs : List Transaction)
  | update (t : Transaction)
  | remove (id : String)
deriving DecidableEq, Repr

/-- The pure functional fold step. -/
def applyOp (ts : List Transaction) : TxOp → List Transaction
  | .add newTxs => ts ++ newTxs
  | .update t => ts.map (fun x => if x.id = t.id then t else x)
  | .remove id => ts.filter (fun t => t.id ≠ id)

/-- The pure operation each call denotes, threading the edit mode; the
persistence outcome carried by the call is ignored. -/
def opsOf : Option Transaction → List Call → List TxOp
  | ed, [] => []
  | ed, .save newTxs _ :: rest =>
      match ed, newTxs with
      | some _, [t] => .update t :: opsOf none rest
      | _, _ => .add newTxs :: opsOf ed rest
  | ed, .delete id _ :: rest => .remove id :: opsOf ed rest
  | _, .beginEdit t :: rest => opsOf (some t) rest

theorem runCall_transactions_editing (s : AppState) (c : Call) :
    (runCall s c).transactions
      = (opsOf s.editing [c]).foldl applyOp s.transactions
    ∧ (runCall s c).editing
      = match s.editing, c with
        | some _, .save [_] _ => none
        | _, .beginEdit t => some t
        | ed, _ => ed := by
  cases c with
  | save newTxs persist =>
      rcases hed : s.editing with _ | e
      · cases persist <;>
          simp [runCall, handleAddTransaction, updateSuggestions, opsOf, applyOp, hed]
      · match newTxs with
        | [] => cases persist <;>
            simp [runCall, handleAddTransaction, updateSuggestions, opsOf, applyOp, hed]
        | [t] => cases persist <;>
            simp [runCall, handleAddTransaction, updateSuggestions, opsOf, applyOp, hed]
        | t1 :: t2 :: rest => cases persist <;>
            simp [runCall, handleAddTransaction, updateSuggestions, opsOf, applyOp, hed]
  | delete id persist =>
      rcases hed : s.editing with _ | e <;> cases persist <;>
        simp [runCall, handleDeleteTransaction, opsOf, applyOp, hed]
  | beginEdit t =>
      rcases hed : s.editing with _ | e <;>
        simp [runCall, handleEditTransaction, opsOf, hed]

/-- C4: for any sequence of add, update and delete mutations, with arbitrary
persistence outcomes carried by each call, the in-memory transaction
collection after the sequence equals the pure fold of the denoted operations
over the initial collection; the right-hand side does not mention the
persistence outcomes, so a persistence failure never rolls back the
in-memory state. -/
theorem runCalls_eq_pure_fold (s : AppState) (calls : List Call) :
    (runCalls s calls).transactions
      = (opsOf s.editing calls).foldl applyOp s.transactions := by
  induction calls generalizing s with
  | nil => simp [runCalls, opsOf]
  | cons c rest ih =>
      have h := runCall_transactions_editing s c
      cases c with
      | save newTxs persist =>
          rcases hed : s.editing with _ | e
          · have he : (runCall s (.save newTxs persist)).editing = s.editing := by
              cases persist <;> rcases newTxs with _ | ⟨t, _ | _⟩ <;>
                simp [runCall, handleAddTransaction, updateSuggestions, hed]
            simp only [runCalls, ih, he, hed]
            rw [h.1]
            rcases newTxs with _ | ⟨t, _ | _⟩ <;> simp [opsOf, hed, applyOp]
          · match newTxs with
            | [] =>
                simp only [runCalls, ih]
                rw [h.1]
                have he : (runCall s (.save [] persist)).editing = s.editing := by
                  cases persist <;>
                    simp [runCall, handleAddTransaction, updateSuggestions, hed]
                simp [opsOf, hed, he, applyOp]
            | [t] =>
                simp only [runCalls, ih]
                rw [h.1]
                have he : (runCall s (.save [t] persist)).editing = none := by
                  cases persist <;>
                    simp [runCall, handleAddTransaction, updateSuggestions, hed]
                simp [opsOf, hed, he, applyOp]
            | t1 :: t2 :: more =>
                simp only [runCalls, ih]
                rw [h.1]
                have he : (runCall s (.save (t1 :: t2 :: more) persist)).editing = s.editing := by
                  cases persist <;>
                    simp [runCall, handleAddTransaction, updateSuggestions, hed]
                simp [opsOf, hed, he, applyOp]
      | delete id persist =>
          simp only [runCalls, ih]
          rw [h.1]
          have he : (runCall s (.delete id persist)).editing = s.editing := by
            cases persist <;> simp [runCall, handleDeleteTransaction]
          simp [opsOf, he, applyOp]
      | beginEdit t =>
          simp only [runCalls, ih]
          have he : (runCall s (.beginEdit t)).editing = some t := by
            simp [runCall, handleEditTransaction]
          have ht : (runCall s (.beginEdit t)).transactions = s.transactions := by
            simp [runCall, handleEditTransaction]
          simp [opsOf, he, ht]

/-! ## Session behavior of persistence failures (claim C7) -/

/-- A concrete authenticated app state used in counterexamples and
witnesses. -/
def s0 : AppState :=
  { transactions := [], editing := none, settings := DEFAULT_SETTINGS
  , isAuthenticated := true, tokenStored := true
  , recentSources := [], recentDestinations := [] }

/-- C7 counterexample: a persistence failure of the auth kind during
handleAddTransaction leaves the session fully authenticated with the token
still stored, so the claimed forced de-authentication does not happen. -/
theorem mutation_authError_keeps_session :
    (handleAddTransaction s0 [scenarioTx] .errAuth).1.isAuthenticated = true
  ∧ (handleAddTransaction s0 [scenarioTx] .errAuth).1.tokenStored = true := by
  constructor <;> rfl

/-- C7 (amended): every persistence failure of a mutation handler, auth or
transport alike, leaves the session untouched (authenticated flag and stored
token unchanged) and is reported as a sync failure; no mutation handler ever
clears the session. -/
theorem persistence_failure_never_clears_session
    (s : AppState) (newTxs : List Transaction) (id : String)
    (newSettings : AppSettings) (r : PersistResult) (hr : r ≠ .ok) :
    ((handleAddTransaction s newTxs r).1.isAuthenticated = s.isAuthenticated
      ∧ (handleAddTransaction s newTxs r).1.tokenStored = s.tokenStored
      ∧ (handleAddTransaction s newTxs r).2 = true)
  ∧ ((handleDeleteTransaction s id r).1.isAuthenticated = s.isAuthenticated
      ∧ (handleDeleteTransaction s id r).1.tokenStored = s.tokenStored
      ∧ (handleDeleteTransaction s id r).2 = true)
  ∧ ((handleSaveSettings s newSettings r).1.isAuthenticated = s.isAuthenticated
      ∧ (handleSaveSettings s newSettings r).1.tokenStored = s.tokenStored
      ∧ (handleSaveSettings s newSettings r).2 = true) := by
  have hadd : ∀ p : PersistResult,
      (handleAddTransaction s newTxs p).1.isAuthenticated = s.isAuthenticated
      ∧ (handleAddTransaction s newTxs p).1.tokenStored = s.tokenStored := by
    intro p
    rcases hed : s.editing with _ | e <;>
      rcases newTxs with _ | ⟨t, _ | _⟩ <;> cases p <;>
      simp [handleAddTransaction, updateSuggestions, hed]
  cases r with
  | ok => exact absurd rfl hr
  | errAuth =>
      refine ⟨⟨(hadd _).1, (hadd _).2, ?_⟩, ⟨rfl, rfl, rfl⟩, ⟨rfl, rfl, rfl⟩⟩
      rcases hed : s.editing with _ | e <;>
        rcases newTxs with _ | ⟨t, _ | _⟩ <;>
        simp [handleAddTransaction, updateSuggestions, hed]
  | errTransport =>
      refine ⟨⟨(hadd _).1, (hadd _).2, ?_⟩, ⟨rfl, rfl, rfl⟩, ⟨rfl, rfl, rfl⟩⟩
      rcases hed : s.editing with _ | e <;>
        rcases newTxs with _ | ⟨t, _ | _⟩ <;>
        simp [handleAddTransaction, updateSuggestions, hed]

/-- C7 witness: the amended statement applied at a concrete transport
failure. -/
theorem persistence_failure_never_clears_session_w :
    (PersistResult.errTransport ≠ PersistResult.ok)
  ∧ (handleAddTransaction s0 [scenarioTx] .errTransport).1.isAuthenticated = s0.isAuthenticated
  ∧ (handleSaveSettings s0 DEFAULT_SETTINGS .errTransport).2 = true := by
  have h := persistence_failure_never_clears_session s0 [scenarioTx] "t1"
    DEFAULT_SETTINGS .errTransport (by decide)
  exact ⟨by decide, h.1.1, h.2.2.2.2⟩


/-! ## Remote blob store adapter (src/services/dropbox.ts) -/

/-- Outcome of one remote call, as seen by the adapter: success, or a thrown
error of auth kind (401/400/invalid token) or transport kind. -/
inductive ROutcome (α : Type)
  | ok (a : α)
  | errAuth
  | errTransport
deriving DecidableEq, Repr

/-- Errors the adapter surfaces to its callers. -/
inductive SvcError
  | notAuthenticated
  | cannotRenameDefault
  | nameExists
  | auth
  | transport
deriving DecidableEq, Repr

/-- Outcome of the filesGetMetadata call underlying checkFileExists. -/
inductive MetaOutcome
  | found
  | notFound
  | errAuth
  | errTransport
deriving DecidableEq, Repr

/-- Outcome of the filesMoveV2 call underlying renameProfile. -/
inductive MoveOutcome
  | ok
  | notFound
  | errOther
deriving DecidableEq, Repr

/-- The checkFileExists method: with no client it returns false; otherwise a
found metadata answer is true, a path_not_found error is false, and any other
error is rethrown. -/
def checkFileExistsM (authenticated : Bool) (meta : MetaOutcome) : Except SvcError Bool :=
  if authenticated = false then .ok false
  else
    match meta with
    | .found => .ok true
    | .notFound => .ok false
    | .errAuth => .error .auth
    | .errTransport => .error .transport

/-- The uploadFile method: with no client it throws Not authenticated;
otherwise it propagates the outcome of filesUpload. -/
def uploadFileM (authenticated : Bool) (up : ROutcome Unit) : Except SvcError Unit :=
  if authenticated = false then .error .notAuthenticated
  else
    match up with
    | .ok _ => .ok ()
    | .errAuth => .error .auth
    | .errTransport => .error .transport

/-- The downloadFile method: with no client it throws Not authenticated; a
path_not_found error yields null (modelled none), any other error is
rethrown. -/
def downloadFileM {α : Type} (authenticated : Bool)
    (dl : ROutcome (Option α)) : Except SvcError (Option α) :=
  if authenticated = false then .error .notAuthenticated
  else
    match dl with
    | .ok v => .ok v
    | .errAuth => .error .auth
    | .errTransport => .error .transport

/-- The getProfiles method: with no client it returns [Default]; otherwise it
downloads profiles.json and answers its list when present, and [Default] when
the file is absent, the field is missing, or the download fails with ANY
error (the catch block absorbs every failure). -/
def getProfilesM (authenticated : Bool) (dl : ROutcome (Option (List String))) : List String :=
  if authenticated = false then ["Default"]
  else
    match dl with
    | .ok (some ps) => ps
    | .ok none => ["Default"]
    | .errAuth => ["Default"]
    | .errTransport => ["Default"]

/-- Adapter-internal state: whether a Dropbox client is held, and the current
profile name. -/
structure SvcState where
  authenticated : Bool
  currentProfile : String
deriving DecidableEq, Repr

/-- Remote events issued by renameProfile, in issue order. -/
inductive Ev
  | writeRegistry (ps : List String)
  | moveFolder (src dst : String)
deriving DecidableEq, Repr

/-- Environment of one renameProfile run: the registry download outcome, the
registry upload outcome, and the folder move outcome. -/
structure RenameEnv where
  registryDl : ROutcome (Option (List String))
  uploadRegistry : ROutcome Unit
  move : MoveOutcome
deriving DecidableEq, Repr

/-- The renameProfile method of src/services/dropbox.ts lines 194-224: guard
on authentication, the Default name, and an existing target name; write the
updated registry first; then attempt the folder move, whose failure of ANY
kind is caught and only logged; finally update the current profile.  Returns
the new adapter state and the ordered list of remote events issued. -/
def renameProfile (env : RenameEnv) (s : SvcState) (oldName newName : String) :
    Except SvcError (SvcState × List Ev) :=
  if s.authenticated = false then .error .notAuthenticated
  else if oldName = "Default" then .error .cannotRenameDefault
  else
    let profiles := getProfilesM s.authenticated env.registryDl
    if newName ∈ profiles then .error .nameExists
    else
      match env.uploadRegistry with
      | .errAuth => .error .auth
      | .errTransport => .error .transport
      | .ok _ =>
          let newProfiles := profiles.map (fun p => if p = oldName then newName else p)
          let s2 := { s with currentProfile :=
            if s.currentProfile = oldName then newName else s.currentProfile }
          .ok (s2, [ .writeRegistry newProfiles
                   , .moveFolder ("/profiles/" ++ oldName) ("/profiles/" ++ newName) ])

/-- C2: the profile registry read converts EVERY download failure, transport
and auth alike, into the [Default] fallback; evaluated at a transport error
and an auth error of the authenticated adapter. -/
theorem getProfiles_unknown_becomes_default :
    getProfilesM true .errTransport = ["Default"]
  ∧ getProfilesM true .errAuth = ["Default"]
  ∧ getProfilesM true (.ok none) = ["Default"] := by
  exact ⟨rfl, rfl, rfl⟩

/-- A concrete rename environment in which the folder move fails with an
error that is NOT path_not_found. -/
def renameEnvOtherFailure : RenameEnv :=
  { registryDl := .ok (some ["Default", "A"]), uploadRegistry := .ok (), move := .errOther }

/-- A concrete adapter state for rename runs. -/
def svcA : SvcState := { authenticated := true, currentProfile := "A" }

/-- C3 counterexample: with the folder move failing with an error other than
path_not_found, renameProfile still succeeds and returns normally, so the
claimed surfacing of non-not-found move failures does not happen. -/
theorem rename_swallows_other_move_failure :
    renameEnvOtherFailure.move = .errOther
  ∧ renameProfile renameEnvOtherFailure svcA "A" "B"
      = .ok ({ authenticated := true, currentProfile := "B" }
            , [ .writeRegistry ["Default", "B"], .moveFolder "/profiles/A" "/profiles/B" ]) := by
  exact ⟨rfl, rfl⟩

/-- C3 (amended): for renameProfile on an authenticated adapter with oldName
not Default, newName not registered and the registry upload succeeding, the
call succeeds for EVERY outcome of the folder move, the registry is written
with the new name before the folder move is attempted, and the current
profile follows the rename. -/
theorem rename_registry_first_move_best_effort
    (env : RenameEnv) (s : SvcState) (oldName newName : String)
    (hauth : s.authenticated = true) (hold : oldName ≠ "Default")
    (hnew : newName ∉ getProfilesM s.authenticated env.registryDl)
    (hup : env.uploadRegistry = .ok ()) :
    renameProfile env s oldName newName
      = .ok ({ s with currentProfile :=
                if s.currentProfile = oldName then newName else s.currentProfile }
            , [ .writeRegistry ((getProfilesM s.authenticated env.registryDl).map
                  (fun p => if p = oldName then newName else p))
              , .moveFolder ("/profiles/" ++ oldName) ("/profiles/" ++ newName) ]) := by
  rw [hauth] at hnew
  simp [renameProfile, hauth, hold, hnew, hup]

/-- C3 witness: the amended statement applied at a concrete environment in
which the move reports path_not_found. -/
theorem rename_registry_first_move_best_effort_w :
    let env : RenameEnv :=
      { registryDl := .ok (some ["Default", "A"]), uploadRegistry := .ok (), move := .notFound }
    (svcA.authenticated = true ∧ "A" ≠ "Default"
      ∧ "B" ∉ getProfilesM svcA.authenticated env.registryDl
      ∧ env.uploadRegistry = .ok ())
  ∧ renameProfile env svcA "A" "B"
      = .ok ({ authenticated := true, currentProfile := "B" }
            , [ .writeRegistry ["Default", "B"], .moveFolder "/profiles/A" "/profiles/B" ]) := by
  intro env
  refine ⟨⟨rfl, by decide, by decide, rfl⟩, ?_⟩
  have h := rename_registry_first_move_best_effort env svcA "A" "B" rfl (by decide)
    (by decide) rfl
  simpa using h

/-- C10: an adapter holding no client answers every exists check with a
confirmed false, while upload and download in the same state throw the
Not authenticated error. -/
theorem unauthenticated_adapter_behavior
    (meta : MetaOutcome) (up : ROutcome Unit) (dl : ROutcome (Option (List Transaction))) :
    checkFileExistsM false meta = .ok false
  ∧ uploadFileM false up = .error .notAuthenticated
  ∧ downloadFileM false dl = .error .notAuthenticated := by
  exact ⟨rfl, rfl, rfl⟩


/-! ## Load path (loadDataAndSettings, src/types.ts lines 130-201) -/

/-- Environment of one loadDataAndSettings run: the outcome of each remote
call it may issue, and the user answer to the logout confirmation dialog. -/
structure LoadEnv where
  existsData : ROutcome Bool
  downloadData : ROutcome (Option (List Transaction))
  uploadEmpty : ROutcome Unit
  existsSettings : ROutcome Bool
  downloadSettings : ROutcome (Option AppSettings)
  confirmLogout : Bool
deriving DecidableEq, Repr

/-- Result of one loadDataAndSettings run: the final app state, the paths the
run attempted to upload, and whether a failure was reported to the user. -/
structure LoadOut where
  state : AppState
  uploads : List String
  errorReported : Bool
deriving DecidableEq, Repr

/-- The handleLogout handler: if the user confirms, the client and tokens are
cleared, the session flag drops and the transaction list is emptied;
otherwise nothing happens. -/
def handleLogout (confirm : Bool) (s : AppState) : AppState :=
  if confirm then
    { s with isAuthenticated := false, tokenStored := false, transactions := [] }
  else s

/-- The settings half of loadDataAndSettings (lines 166-181): a confirmed
present settings file is downloaded and applied when non-null, a confirmed
absent one falls back to the defaults, and any failure of the check or the
download is caught locally and also falls back to the defaults. -/
def loadSettingsPhase (env : LoadEnv) (s : AppState) : AppState :=
  match env.existsSettings with
  | .ok true =>
      match env.downloadSettings with
      | .ok (some st) => { s with settings := st }
      | .ok none => s
      | .errAuth => { s with settings := DEFAULT_SETTINGS }
      | .errTransport => { s with settings := DEFAULT_SETTINGS }
  | .ok false => { s with settings := DEFAULT_SETTINGS }
  | .errAuth => { s with settings := DEFAULT_SETTINGS }
  | .errTransport => { s with settings := DEFAULT_SETTINGS }

/-- The loadDataAndSettings handler of src/types.ts lines 130-201.  The
exists check on the transactions resource is tried first: an auth-kind
failure (status 401/400) alerts and forces handleLogout, any other failure
alerts and returns with nothing written; a confirmed present resource is
downloaded (its own failures reaching the outer catch, which forces logout
for the auth kind); a confirmed absent resource triggers the single
empty-resource creation write; then the settings phase runs. -/
def loadDataAndSettings (env : LoadEnv) (s : AppState) : LoadOut :=
  match env.existsData with
  | .errAuth =>
      { state := handleLogout env.confirmLogout s, uploads := [], errorReported := true }
  | .errTransport =>
      { state := s, uploads := [], errorReported := true }
  | .ok true =>
      match env.downloadData with
      | .ok (some data) =>
          { state := loadSettingsPhase env (updateSuggestions data { s with transactions := data })
          , uploads := [], errorReported := false }
      | .ok none =>
          { state := loadSettingsPhase env s, uploads := [], errorReported := false }
      | .errAuth =>
          { state := handleLogout env.confirmLogout s, uploads := [], errorReported := true }
      | .errTransport =>
          { state := s, uploads := [], errorReported := true }
  | .ok false =>
      match env.uploadEmpty with
      | .ok _ =>
          { state := loadSettingsPhase env { s with transactions := [] }
          , uploads := ["bookkeeping_data.json"], errorReported := false }
      | .errAuth =>
          { state := handleLogout env.confirmLogout s
          , uploads := ["bookkeeping_data.json"], errorReported := true }
      | .errTransport =>
          { state := s, uploads := ["bookkeeping_data.json"], errorReported := true }

/-- A concrete load environment whose exists check fails with the auth kind
and whose logout confirmation is accepted. -/
def loadEnvAuthErr : LoadEnv :=
  { existsData := .errAuth, downloadData := .ok none, uploadEmpty := .ok ()
  , existsSettings := .ok false, downloadSettings := .ok none, confirmLogout := true }

/-- A concrete app state holding one transaction. -/
def sWithTx : AppState := { s0 with transactions := [scenarioTx] }

/-- C1 counterexample: when the exists check fails with the auth kind (an
undetermined outcome) and the user confirms the forced logout, load clears
the in-memory transaction collection, so the claimed unchanged in-memory
state does not hold for every undetermined exists failure (it holds for the
transport kind, see the amended theorem). -/
theorem load_authError_mutates_memory :
    (loadDataAndSettings loadEnvAuthErr sWithTx).state.transactions ≠ sWithTx.transactions
  ∧ (loadDataAndSettings loadEnvAuthErr sWithTx).uploads = [] := by
  exact ⟨by decide, rfl⟩

/-- C1 (amended): a transport-kind exists failure aborts the load with the
state fully unchanged, nothing uploaded and the failure reported; an
auth-kind exists failure aborts with nothing uploaded, the failure reported
and the state that of the forced logout (which clears the transaction list
when confirmed); and the empty-resource creation write is attempted only
when the exists check positively confirmed absence. -/
theorem load_undetermined_exists_aborts (env : LoadEnv) (s : AppState) :
    (env.existsData = .errTransport →
      loadDataAndSettings env s = { state := s, uploads := [], errorReported := true })
  ∧ (env.existsData = .errAuth →
      loadDataAndSettings env s
        = { state := handleLogout env.confirmLogout s, uploads := [], errorReported := true })
  ∧ ("bookkeeping_data.json" ∈ (loadDataAndSettings env s).uploads →
      env.existsData = .ok false) := by
  refine ⟨fun ht => ?_, fun ha => ?_, fun hm => ?_⟩
  · simp [loadDataAndSettings, ht]
  · simp [loadDataAndSettings, ha]
  · rcases he : env.existsData with b | _ | _
    · cases b
      · rfl
      · rcases hd : env.downloadData with v | _ | _ <;>
          simp [loadDataAndSettings, he, hd] at hm
        rcases v with _ | d <;> simp_all
    · simp [loadDataAndSettings, he] at hm
    · simp [loadDataAndSettings, he] at hm

/-- C1 witness: the amended statement applied at a concrete transport-kind
exists failure. -/
theorem load_undetermined_exists_aborts_w :
    let envT : LoadEnv :=
      { existsData := .errTransport, downloadData := .ok none, uploadEmpty := .ok ()
      , existsSettings := .ok false, downloadSettings := .ok none, confirmLogout := false }
    (envT.existsData = .errTransport)
  ∧ loadDataAndSettings envT sWithTx
      = { state := sWithTx, uploads := [], errorReported := true } := by
  intro envT
  exact ⟨rfl, (load_undetermined_exists_aborts envT sWithTx).1 rfl⟩


/-! ## Settings dialog (src/components/SettingsDialog.tsx) -/

/-- The handleDeleteSource handler of src/components/SettingsDialog.tsx
lines 41-53: remove the account at the given index from commonSources and
delete its entry from the initialBalances object.  The UI only invokes it
with an index of a rendered item, so the out-of-range case never occurs and
is modelled as the identity. -/
def handleDeleteSource (s : AppSettings) (index : Nat) : AppSettings :=
  match s.commonSources[index]? with
  | some nameToRemove =>
      { s with commonSources := s.commonSources.eraseIdx index
             , initialBalances := s.initialBalances.filter (fun p => p.1 ≠ nameToRemove) }
  | none => s

theorem jsGet_filter_self (m : List (String × Int)) (k : String) :
    jsGet (m.filter (fun p => p.1 ≠ k)) k = none := by
  induction m with
  | nil => rfl
  | cons p rest ih =>
      rw [List.filter_cons]
      by_cases hp : p.1 = k
      · rw [if_neg (by simp [hp])]
        exact ih
      · rw [if_pos (by simp [hp])]
        simpa [jsGet, hp] using ih

theorem jsGet_filter_other (m : List (String × Int)) (k k' : String) (h : k' ≠ k) :
    jsGet (m.filter (fun p => p.1 ≠ k)) k' = jsGet m k' := by
  induction m with
  | nil => rfl
  | cons p rest ih =>
      rw [List.filter_cons]
      by_cases hp : p.1 = k
      · have hpk : ¬(p.1 = k') := fun he => h (he.symm.trans hp)
        rw [if_neg (by simp [hp])]
        rw [ih]
        simp [jsGet, hpk]
      · rw [if_pos (by simp [hp])]
        by_cases hk : p.1 = k'
        · simp [jsGet, hk]
        · simpa [jsGet, hk] using ih

/-- C9: deleting the account at a valid index from commonSources removes
exactly that account entry from initialBalances, leaves the entry of every
other key unchanged, and leaves commonDestinations, commonIncomeSources and
commonNotes unchanged. -/
theorem settings_delete_source_frame (s : AppSettings) (i : Nat)
    (h : i < s.commonSources.length) :
    jsGet (handleDeleteSource s i).initialBalances (s.commonSources.get ⟨i, h⟩) = none
  ∧ (∀ k, k ≠ s.commonSources.get ⟨i, h⟩ →
      jsGet (handleDeleteSource s i).initialBalances k = jsGet s.initialBalances k)
  ∧ (handleDeleteSource s i).commonDestinations = s.commonDestinations
  ∧ (handleDeleteSource s i).commonIncomeSources = s.commonIncomeSources
  ∧ (handleDeleteSource s i).commonNotes = s.commonNotes := by
  have hget : s.commonSources[i]? = some (s.commonSources.get ⟨i, h⟩) := by
    simp [List.getElem?_eq_getElem h]
  unfold handleDeleteSource
  rw [hget]
  exact ⟨jsGet_filter_self _ _, fun k hk => jsGet_filter_other _ _ _ hk, rfl, rfl, rfl⟩

/-- A concrete settings value used in the C9 witness. -/
def settingsTwo : AppSettings :=
  { commonSources := ["Cash", "Bank"], commonDestinations := ["Food"]
  , commonIncomeSources := ["Salary"], commonNotes := ["Lunch"]
  , initialBalances := [("Cash", 100), ("Bank", 5)] }

/-- C9 witness: the frame statement applied at index 0 of a concrete
two-account settings value, also evaluated at the surviving key. -/
theorem settings_delete_source_frame_w :
    (0 < settingsTwo.commonSources.length)
  ∧ jsGet (handleDeleteSource settingsTwo 0).initialBalances "Cash" = none
  ∧ jsGet (handleDeleteSource settingsTwo 0).initialBalances "Bank"
      = jsGet settingsTwo.initialBalances "Bank"
  ∧ (handleDeleteSource settingsTwo 0).commonDestinations = settingsTwo.commonDestinations := by
  have h : (0 : Nat) < settingsTwo.commonSources.length := by decide
  have hthm := settings_delete_source_frame settingsTwo 0 h
  have hname : settingsTwo.commonSources.get ⟨0, h⟩ = "Cash" := rfl
  rw [hname] at hthm
  exact ⟨h, hthm.1, hthm.2.1 "Bank" (by decide), hthm.2.2.1⟩

/-! ## Split expense authoring (src/components/TransactionForm.tsx) -/

/-- Character-level model of the date normalization in handleSubmit, which
replaces every dash with a slash. -/
def slashDashes (s : String) : String :=
  ⟨s.data.map (fun c => if c = '-' then '/' else c)⟩

/-- The split auto-calculation effect of TransactionForm lines 76-86: with a
total amount present, item A gets Math.floor(total / 2) and item B the
remainder. -/
def autoSplit (total : Int) : Int × Int :=
  (Int.fdiv total 2, total - Int.fdiv total 2)

/-- The split branch of handleSubmit (TransactionForm lines 106-156, with
type EXPENSE, split mode on and no transaction being edited): abort on an
empty source, a zero amount, or an empty destination; otherwise produce the
two independent EXPENSE transactions built from the shared base. -/
def handleSubmitSplit (idA idB date source summary payer destA destB : String)
    (amount amountA amountB : Int) : Option (List Transaction) :=
  if source = "" ∨ amount = 0 then none
  else if destA = "" ∨ destB = "" then none
  else some
    [ { id := idA, date := slashDashes date, type := some .EXPENSE, source := source
      , destination := destA, amount := amountA, summary := summary, payer := payer
      , projectCode := "", invoiceNumber := "" }
    , { id := idB, date := slashDashes date, type := some .EXPENSE, source := source
      , destination := destB, amount := amountB, summary := summary, payer := payer
      , projectCode := "", invoiceNumber := "" } ]

/-- A split submission in which the user never overrode the per-item
amounts, so both come from the auto-calculation effect. -/
def submitSplitDefault (idA idB date source summary payer destA destB : String)
    (amount : Int) : Option (List Transaction) :=
  handleSubmitSplit idA idB date source summary payer destA destB
    amount (autoSplit amount).1 (autoSplit amount).2

/-- C8: a split expense with total N and no explicit per-item amounts yields
exactly two EXPENSE transactions sharing date, source, summary and payer,
with the given distinct ids and the two chosen destinations, and amounts
floor(N/2) and N - floor(N/2) summing to N; at N = 101 the amounts are 50
and 51. -/
theorem split_default_two_expenses
    (idA idB date source summary payer destA destB : String) (amount : Int)
    (hid : idA ≠ idB) (hs : source ≠ "") (ha : amount ≠ 0)
    (hA : destA ≠ "") (hB : destB ≠ "") :
    ∃ t1 t2,
      submitSplitDefault idA idB date source summary payer destA destB amount = some [t1, t2]
      ∧ t1.id ≠ t2.id
      ∧ t1.type = some .EXPENSE ∧ t2.type = some .EXPENSE
      ∧ t1.date = t2.date ∧ t1.source = t2.source
      ∧ t1.summary = t2.summary ∧ t1.payer = t2.payer
      ∧ t1.destination = destA ∧ t2.destination = destB
      ∧ t1.amount = Int.fdiv amount 2 ∧ t2.amount = amount - Int.fdiv amount 2
      ∧ t1.amount + t2.amount = amount
      ∧ (amount = 101 → t1.amount = 50 ∧ t2.amount = 51) := by
  refine ⟨
    { id := idA, date := slashDashes date, type := some .EXPENSE, source := source
    , destination := destA, amount := (autoSplit amount).1, summary := summary, payer := payer
    , projectCode := "", invoiceNumber := "" },
    { id := idB, date := slashDashes date, type := some .EXPENSE, source := source
    , destination := destB, amount := (autoSplit amount).2, summary := summary, payer := payer
    , projectCode := "", invoiceNumber := "" },
    ?_, hid, rfl, rfl, rfl, rfl, rfl, rfl, rfl, rfl, rfl, rfl, ?_, ?_⟩
  · simp [submitSplitDefault, handleSubmitSplit, hs, ha, hA, hB]
  · show (autoSplit amount).1 + (autoSplit amount).2 = amount
    simp only [autoSplit]
    omega
  · intro h101
    subst h101
    constructor
    · show (autoSplit 101).1 = 50
      decide
    · show (autoSplit 101).2 = 51
      decide

/-- C8 witness: the split statement applied at the concrete total 101. -/
theorem split_default_two_expenses_w :
    (("a" : String) ≠ "b" ∧ ("Cash" : String) ≠ "" ∧ (101 : Int) ≠ 0
      ∧ ("Lunch" : String) ≠ "" ∧ ("Dinner" : String) ≠ "")
  ∧ ∃ t1 t2,
      submitSplitDefault "a" "b" "2025-10-11" "Cash" "" "" "Lunch" "Dinner" 101
        = some [t1, t2]
      ∧ t1.amount = 50 ∧ t2.amount = 51 ∧ t1.amount + t2.amount = 101 := by
  refine ⟨⟨by decide, by decide, by decide, by decide, by decide⟩, ?_⟩
  obtain ⟨t1, t2, heq, _, _, _, _, _, _, _, _, _, _, _, hsum, h101⟩ :=
    split_default_two_expenses "a" "b" "2025-10-11" "Cash" "" "" "Lunch" "Dinner" 101
      (by decide) (by decide) (by decide) (by decide) (by decide)
  obtain ⟨hA, hB⟩ := h101 rfl
  refine ⟨t1, t2, heq, hA, hB, ?_⟩
  rw [hA, hB]
  decide

end Bookkeeping
